import Mathlib

/-!
Shallow embedding of the elementals_box_api reward service.

Sources embedded:
- `src/rewards.js` (src/unnamed/part_001): prize weight table, weight
  normalization and the draw loop (`normalizeWeights`, `PRIZES`,
  `choosePrize`).
- `src/index` (src/unnamed/part_000): admission window over a Redis
  sorted set (`getOpensRemaining`, `recordOpen`), idempotency keys for
  payment signatures (`hasUsedSignature`, `markSignatureUsed`), and the
  `/open` and `/eligibility` request handlers.

Modelling conventions:
- JavaScript numbers that hold monetary weights / probabilities are
  modelled as `ℚ`; millisecond timestamps as `Int` (Redis sorted-set
  scores); counters as `Nat`.
- The Redis sorted set `opens:<owner>` is modelled as a `List Int` of
  scores: `zadd` with a fresh uuid member appends a score, `zcard` is the
  length, `zremrangebyscore key 0 cutoff` filters out scores in
  `[0, cutoff]`, and `zrange key 0 0 WITHSCORES` returns the minimal
  score.  The `expire` (key TTL) calls are not modelled: every write
  resets the TTL to the full cooldown, so the TTL never removes an entry
  that is still inside the cooldown window.
- External collaborators (holdings lookups, ledger reads/writes,
  `Math.random`, treasury inventory) are modelled as oracle inputs
  passed to the handler; fallible ledger writes are `Option String`
  (`none` = the awaited call threw).
-/

namespace ElementalsBox

/-! ### Prize model (src/rewards.js) -/

/-- The `PrizeKind` union type of rewards.js: `NOTHING`, `NFT {label}`,
`SOL {lamports, label}`. -/
inductive PrizeKind : Type
  | NOTHING : PrizeKind
  | NFT : String → PrizeKind
  | SOL : ℚ → String → PrizeKind
deriving DecidableEq, Repr

/-- A weighted item, as in rewards.js `type Weighted<T> = { weight, item }`. -/
structure Weighted (T : Type) : Type where
  weight : ℚ
  item : T
deriving DecidableEq, Repr

/-- The `items.reduce((s, x) => s + x.weight, 0)` total inside
`normalizeWeights`. -/
def totalWeight {T : Type} (items : List (Weighted T)) : ℚ :=
  items.foldl (fun s x => s + x.weight) 0

/-- rewards.js `normalizeWeights`: divide every weight by the total,
pairing the resulting probability with the item. -/
def normalizeWeights {T : Type} (items : List (Weighted T)) : List (ℚ × T) :=
  items.map (fun x => (x.weight / totalWeight items, x.item))

/-- `LAMPORTS_PER_SOL` from `@solana/web3.js` (10^9). -/
def LAMPORTS_PER_SOL : ℚ := 1000000000

/-- The static `PRIZES` weight table of rewards.js, in declaration order. -/
def PRIZES : List (Weighted PrizeKind) :=
  [ ⟨86.4, .NOTHING⟩,
    ⟨12.5, .NFT "Elementals NFT"⟩,
    ⟨1.0, .SOL (0.5 * LAMPORTS_PER_SOL) "0.5 SOL"⟩,
    ⟨0.1, .SOL (2.5 * LAMPORTS_PER_SOL) "2.5 SOL"⟩ ]

/-- The loop body of rewards.js `choosePrize`: walk the normalized list,
returning the item whose slot contains `r` (`if (r < p) return item;
r -= p`), or `none` when the list is exhausted. -/
def chooseLoop : ℚ → List (ℚ × PrizeKind) → Option PrizeKind
  | _, [] => none
  | r, (p, item) :: rest => if r < p then some item else chooseLoop (r - p) rest

/-- rewards.js `choosePrize`, parameterized by the `Math.random()` variate:
run the loop over the normalized `PRIZES`; if no slot matched, fall back to
the literal `{ kind: 'NOTHING' }` of the final `return`. -/
def choosePrize (r : ℚ) : PrizeKind :=
  (chooseLoop r (normalizeWeights PRIZES)).getD .NOTHING

/-- Modelled from the spec: the draw described in §4.5 "iterate outcomes in
table-declared order, accumulating probability mass; the outcome whose
cumulative interval contains the variate is selected".  Used only to compare
the code's subtractive loop against the spec's cumulative-interval wording. -/
def cumulativeDraw : ℚ → ℚ → List (ℚ × PrizeKind) → Option PrizeKind
  | _, _, [] => none
  | r, acc, (p, item) :: rest =>
    if acc ≤ r ∧ r < acc + p then some item else cumulativeDraw r (acc + p) rest

/-! ### Admission window (src/unnamed/part_000, lines 100-164) -/

def HOLDER_LIMIT : Nat := 1
def SUPER_HOLDER_LIMIT : Nat := 2
def SUPER_HOLDER_THRESHOLD : Nat := 10

/-- `redis.zremrangebyscore(key, 0, now - COOLDOWN_MS)`: drop every score in
`[0, now - cooldown]`, keeping the rest. -/
def trimStale (cooldown now : Int) (opens : List Int) : List Int :=
  opens.filter (fun t => !decide (0 ≤ t ∧ t ≤ now - cooldown))

/-- `redis.zrange(key, 0, 0, 'WITHSCORES')`: the minimal score of the
sorted set, when the set is non-empty. -/
def oldestScore : List Int → Option Int
  | [] => none
  | t :: ts =>
    some (match oldestScore ts with
          | none => t
          | some m => min t m)

/-- Result record of `getOpensRemaining`. -/
structure OpenResult : Type where
  remaining : Nat
  used : Nat
  limit : Nat
  cooldownMs : Int
deriving DecidableEq, Repr

/-- `getOpensRemaining` from src/unnamed/part_000: trim stale entries, count
the remainder, derive the tier limit from `holderCount`/`isTokenHolder`,
and report the cooldown time when the quota is exhausted.  Returns the
result together with the owner's sorted set after the trim. -/
def getOpensRemaining (cooldown now : Int) (opens : List Int)
    (holderCount : Nat) (isTokenHolder : Bool) : OpenResult × List Int :=
  let opens' := trimStale cooldown now opens
  let used := opens'.length
  let limit :=
    if holderCount ≥ SUPER_HOLDER_THRESHOLD then SUPER_HOLDER_LIMIT
    else if 0 < holderCount ∨ isTokenHolder = true then HOLDER_LIMIT
    else 0
  let remaining := limit - used
  let cooldownMs : Int :=
    if remaining = 0 then
      match oldestScore opens' with
      | some oldest => max 0 (cooldown - (now - oldest))
      | none => cooldown
    else 0
  (⟨remaining, used, limit, cooldownMs⟩, opens')

/-- `recordOpen`: `redis.zadd(key, nowMs(), uuidv4())` — a fresh member with
score `now` joins the owner's sorted set. -/
def recordOpen (now : Int) (opens : List Int) : List Int :=
  opens ++ [now]

/-- Modelled from the spec: the `Tier` enum of §3 (None / Holder /
SuperHolder), derived per request.  Used to compare the code's inline limit
conditional against the spec's tier rule. -/
inductive Tier : Type
  | NoneT : Tier
  | Holder : Tier
  | SuperHolder : Tier
deriving DecidableEq, Repr

/-- Modelled from the spec: §4.1 tier rule — `holdingCount ≥ 10 →
SuperHolder`; `holdingCount > 0 OR any token threshold met → Holder`;
else `None`. -/
def tierOf (holdingCount : Nat) (anyTokenThresholdMet : Bool) : Tier :=
  if holdingCount ≥ 10 then .SuperHolder
  else if 0 < holdingCount ∨ anyTokenThresholdMet = true then .Holder
  else .NoneT

/-- Modelled from the spec: §4.2 limit by tier — None→0, Holder→1,
SuperHolder→2. -/
def tierLimit : Tier → Nat
  | .NoneT => 0
  | .Holder => 1
  | .SuperHolder => 2

/-! ### Server state and the /eligibility handler -/

/-- Persisted Redis state relevant to one owner: the used-signature keys
(`sig:<sig>`) and the owner's `opens:<owner>` sorted-set scores. -/
structure ServerState : Type where
  sigs : List String
  opens : List Int
deriving DecidableEq, Repr

/-- `hasUsedSignature`: `redis.get(sigKey(sig))` is non-null. -/
def hasUsedSignature (st : ServerState) (sig : String) : Bool :=
  st.sigs.contains sig

/-- `markSignatureUsed`: `redis.set(sigKey(sig), '1', 'EX', 7d)` (the TTL is
not modelled; see the header note). -/
def markSignatureUsed (st : ServerState) (sig : String) : ServerState :=
  { st with sigs := sig :: st.sigs }

/-- Oracle inputs consumed by the `/eligibility` handler: the external
holdings lookups. -/
structure EligEnv : Type where
  holderCount : Nat
  tokenCheck : Bool
  tokenCheck1 : Bool
  tokenCheck2 : Bool
  tokenCheck3 : Bool
  tokenBalance : ℚ
deriving DecidableEq

/-- The JSON body returned by `GET /eligibility` (the static `rule` string
is omitted). -/
structure EligResponse : Type where
  owner : String
  holderCount : Nat
  tokenBalance : ℚ
  used : Nat
  limit : Nat
  remaining : Nat
  cooldownMs : Int
deriving DecidableEq

/-- The `GET /eligibility` handler of src/unnamed/part_000: resolve
holdings, evaluate the admission window, and report; the only state it
touches is the owner's sorted set via `getOpensRemaining`'s trim. -/
def eligibilityHandler (cooldown now : Int) (env : EligEnv)
    (st : ServerState) (owner : String) : EligResponse × ServerState :=
  let isTokenHolder := env.tokenCheck || env.tokenCheck1 || env.tokenCheck2
    || env.tokenCheck3
  let er := getOpensRemaining cooldown now st.opens env.holderCount isTokenHolder
  (⟨owner, env.holderCount, env.tokenBalance, er.1.used, er.1.limit,
    er.1.remaining, er.1.cooldownMs⟩,
   { st with opens := er.2 })

/-! ### The /open handler -/

/-- Result of `verifyPaymentSignature` (unused response metadata — slot and
blockTime — is omitted). -/
structure VerifyResult : Type where
  ok : Bool
  lamportsToTreasury : Int
  err : Option String
deriving DecidableEq, Repr

/-- Oracle inputs consumed by one `/open` request: holdings lookups, the
ledger read behind `verifyPaymentSignature`, the `Math.random()` draw (as
the resulting prize), the treasury inventory pick (the mint address, or
`none` when no NFT matches), and the two fallible ledger writes (`none`
means the awaited transfer threw). -/
structure OpenEnv : Type where
  holderCount : Nat
  tokenCheck : Bool
  tokenCheck1 : Bool
  tokenCheck2 : Bool
  tokenCheck3 : Bool
  verify : VerifyResult
  prize : PrizeKind
  nftPick : Option String
  solTransfer : Option String
  nftTransfer : Option String
deriving DecidableEq, Repr

/-- Step events of the `/open` flow, used to state ordering properties. -/
inductive Ev : Type
  | checkSigUsed : Ev
  | checkEligibility : Ev
  | checkQuota : Ev
  | verifyPayment : Ev
  | claimProof : Ev
  | drawPrize : Ev
  | settlePhase : Ev
  | transfer : Ev
  | recordWindow : Ev
deriving DecidableEq, Repr

/-- The order in which `/open` performs its steps. -/
def openEvOrder : List Ev :=
  [.checkSigUsed, .checkEligibility, .checkQuota, .verifyPayment,
   .claimProof, .drawPrize, .settlePhase, .transfer, .recordWindow]

/-- The HTTP outcome of an `/open` request. -/
inductive OpenOutcome : Type
  | badRequest : String → OpenOutcome
  | conflict : String → OpenOutcome
  | forbidden : String → OpenOutcome
  | serverError : String → OpenOutcome
  | success : PrizeKind → Option String → Option String → String → OpenOutcome
deriving DecidableEq, Repr

/-- The settlement section of `/open` (lines 325-352): returns
`(prizeTxSig, prizeMint)` on success or the thrown error, plus whether a
transfer was attempted.  SOL: always submit a treasury→owner transfer.
NFT: query the inventory; when a mint is found transfer it, otherwise fall
through with only a warning (no transfer).  NOTHING: no-op. -/
def settlePrize (env : OpenEnv) : PrizeKind →
    (Option String × Option String ⊕ String) × Bool
  | .SOL _ _ =>
    (match env.solTransfer with
     | some s => .inl (some s, none)
     | none => .inr "SOL transfer failed", true)
  | .NFT _ =>
    (match env.nftPick with
     | some mint =>
       match env.nftTransfer with
       | some s => .inl (some s, some mint)
       | none => .inr "NFT transfer failed"
     | none => .inl (none, none), env.nftPick.isSome)
  | .NOTHING => (.inl (none, none), false)

/-- The `POST /open` handler of src/unnamed/part_000 (lines 290-373):
missing-signature check, signature-reuse check, eligibility lookups,
admission-window evaluation, payment verification, claiming the signature,
the prize draw, settlement, and recording the open.  Returns the HTTP
outcome, the final persisted state, and the trace of steps performed. -/
def openFlow (cooldown now : Int) (env : OpenEnv) (st : ServerState)
    (sig : String) : OpenOutcome × ServerState × List Ev :=
  if sig = "" then (.badRequest "Missing signature", st, [])
  else if hasUsedSignature st sig then
    (.conflict "Signature already used", st, [.checkSigUsed])
  else
    let isTokenHolder := env.tokenCheck || env.tokenCheck1 || env.tokenCheck2
      || env.tokenCheck3
    let er := getOpensRemaining cooldown now st.opens env.holderCount isTokenHolder
    let st1 : ServerState := { st with opens := er.2 }
    if er.1.remaining = 0 then
      (.forbidden "Open limit reached in the last cooldown window", st1,
       [.checkSigUsed, .checkEligibility, .checkQuota])
    else if env.verify.ok = false then
      (.badRequest ("Payment verification failed: " ++ env.verify.err.getD "unknown"),
       st1, [.checkSigUsed, .checkEligibility, .checkQuota, .verifyPayment])
    else
      let st2 := markSignatureUsed st1 sig
      let prize := env.prize
      match settlePrize env prize with
      | (.inr e, attempted) =>
        (.serverError e, st2,
         [.checkSigUsed, .checkEligibility, .checkQuota, .verifyPayment,
          .claimProof, .drawPrize, .settlePhase] ++
          (if attempted then [.transfer] else []))
      | (.inl (txSig, mint), attempted) =>
        let st3 : ServerState := { st2 with opens := recordOpen now st2.opens }
        (.success prize txSig mint sig, st3,
         [.checkSigUsed, .checkEligibility, .checkQuota, .verifyPayment,
          .claimProof, .drawPrize, .settlePhase] ++
          (if attempted then [.transfer] else []) ++ [.recordWindow])

/-! ### Helper lemmas -/

theorem foldl_add_weight {T : Type} (l : List (Weighted T)) (a : ℚ) :
    l.foldl (fun s x => s + x.weight) a = a + (l.map Weighted.weight).sum := by
  induction l generalizing a with
  | nil => simp
  | cons hd tl ih => simp [List.foldl_cons, ih, add_assoc]

theorem totalWeight_eq_sum {T : Type} (l : List (Weighted T)) :
    totalWeight l = (l.map Weighted.weight).sum := by
  simp [totalWeight, foldl_add_weight]

theorem sum_map_div {T : Type} (l : List (Weighted T)) (t : ℚ) :
    (l.map (fun x => x.weight / t)).sum = (l.map Weighted.weight).sum / t := by
  induction l with
  | nil => simp
  | cons hd tl ih => simp [ih, add_div]

theorem totalWeight_pos {T : Type} (items : List (Weighted T))
    (hne : items ≠ []) (hpos : ∀ x ∈ items, 0 < x.weight) :
    0 < totalWeight items := by
  rw [totalWeight_eq_sum]
  cases items with
  | nil => exact absurd rfl hne
  | cons hd tl =>
    have h0 : 0 < hd.weight := hpos hd (by simp)
    have h1 : 0 ≤ (tl.map Weighted.weight).sum := by
      apply List.sum_nonneg
      intro x hx
      obtain ⟨w, hw, rfl⟩ := List.mem_map.mp hx
      exact le_of_lt (hpos w (by simp [hw]))
    simp only [List.map_cons, List.sum_cons]
    linarith

theorem normalizeWeights_PRIZES :
    normalizeWeights PRIZES =
      [ ((108 : ℚ)/125, .NOTHING),
        ((1 : ℚ)/8, .NFT "Elementals NFT"),
        ((1 : ℚ)/100, .SOL 500000000 "0.5 SOL"),
        ((1 : ℚ)/1000, .SOL 2500000000 "2.5 SOL") ] := by
  norm_num [normalizeWeights, PRIZES, totalWeight, LAMPORTS_PER_SOL]

/-! ### Claims about rewards.js -/

/-- C4: for every non-empty list of positive weights, `normalizeWeights`
returns one entry per weight equal to that weight divided by the total, the
returned probabilities sum to 1 regardless of the input total, and the
concrete table [86.4, 12.5, 1.0, 0.1] yields [0.864, 0.125, 0.01, 0.001]. -/
theorem normalize_sums_to_one {T : Type} (items : List (Weighted T))
    (hne : items ≠ []) (hpos : ∀ x ∈ items, 0 < x.weight) :
    normalizeWeights items =
      items.map (fun x => (x.weight / totalWeight items, x.item)) ∧
    ((normalizeWeights items).map Prod.fst).sum = 1 ∧
    (normalizeWeights PRIZES).map Prod.fst =
      [(0.864 : ℚ), 0.125, 0.01, 0.001] := by
  refine ⟨rfl, ?_, ?_⟩
  · have ht : totalWeight items ≠ 0 := ne_of_gt (totalWeight_pos items hne hpos)
    have : (normalizeWeights items).map Prod.fst =
        items.map (fun x => x.weight / totalWeight items) := by
      simp [normalizeWeights]
    rw [this, sum_map_div, ← totalWeight_eq_sum, div_self ht]
  · rw [normalizeWeights_PRIZES]
    norm_num

/-- Witness for C4 at the concrete `PRIZES` table. -/
theorem normalize_sums_to_one_witness :
    PRIZES ≠ [] ∧ ((normalizeWeights PRIZES).map Prod.fst).sum = 1 :=
  ⟨by simp [PRIZES],
   (normalize_sums_to_one PRIZES (by simp [PRIZES])
      (by intro x hx; fin_cases hx <;> norm_num)).2.1⟩

theorem chooseLoop_eq_cumulativeDraw (l : List (ℚ × PrizeKind)) :
    ∀ (r acc : ℚ), 0 ≤ r → chooseLoop r l = cumulativeDraw (r + acc) acc l := by
  induction l with
  | nil => intro r acc _; rfl
  | cons hd tl ih =>
    intro r acc hr
    obtain ⟨p, item⟩ := hd
    simp only [chooseLoop, cumulativeDraw]
    by_cases h : r < p
    · rw [if_pos h, if_pos ⟨by linarith, by linarith⟩]
    · rw [if_neg h, if_neg (by push_neg; intro _; linarith)]
      have := ih (r - p) (acc + p) (by linarith)
      have harith : r - p + (acc + p) = r + acc := by ring
      rw [harith] at this
      exact this

/-- C5: the draw is the cumulative-interval selection over the normalized
table in declared order, and with the normalized probabilities
[0.864, 0.125, 0.01, 0.001] and variate r = 0.9 the second-declared outcome
(the NFT prize) is selected. -/
theorem draw_cumulative_and_second_at_09 (r : ℚ) (hr : 0 ≤ r) :
    chooseLoop r (normalizeWeights PRIZES) =
      cumulativeDraw r 0 (normalizeWeights PRIZES) ∧
    choosePrize (9/10) = .NFT "Elementals NFT" := by
  constructor
  · have := chooseLoop_eq_cumulativeDraw (normalizeWeights PRIZES) r 0 hr
    rwa [add_zero] at this
  · rw [choosePrize, normalizeWeights_PRIZES]
    norm_num [chooseLoop]

/-- Witness for C5 at r = 9/10. -/
theorem draw_cumulative_and_second_at_09_witness :
    chooseLoop (9/10) (normalizeWeights PRIZES) =
      cumulativeDraw (9/10) 0 (normalizeWeights PRIZES) ∧
    choosePrize (9/10) = .NFT "Elementals NFT" :=
  draw_cumulative_and_second_at_09 (9/10) (by norm_num)

/-- C6 counterexample: at the variate-≈-1 edge case (representable exactly
as r = 1, where accumulation leaves no interval containing the variate:
`chooseLoop` exhausts the table and returns `none`), `choosePrize` returns
`NOTHING` — the first-declared outcome — not the last-declared outcome
`SOL 2.5`, refuting the claim that the fallback is the last-declared
outcome. -/
theorem draw_fallback_counterexample :
    chooseLoop 1 (normalizeWeights PRIZES) = none ∧
    choosePrize 1 = .NOTHING ∧
    PRIZES.getLast? = some ⟨0.1, .SOL (2.5 * LAMPORTS_PER_SOL) "2.5 SOL"⟩ ∧
    PrizeKind.NOTHING ≠ .SOL (2.5 * LAMPORTS_PER_SOL) "2.5 SOL" := by
  have hloop : chooseLoop 1 (normalizeWeights PRIZES) = none := by
    rw [normalizeWeights_PRIZES]
    norm_num [chooseLoop]
  exact ⟨hloop, by rw [choosePrize, hloop]; rfl, by rw [PRIZES]; rfl, by simp⟩

/-- C6 (amended): for every variate for which accumulation leaves no
interval containing it, the draw returns the fixed `NOTHING` outcome (the
first-declared outcome of the table) rather than failing, and that fallback
differs from the last-declared outcome of the weight table. -/
theorem draw_fallback_is_nothing (r : ℚ)
    (h : chooseLoop r (normalizeWeights PRIZES) = none) :
    choosePrize r = .NOTHING ∧
    ∀ w, PRIZES.getLast? = some w → choosePrize r ≠ w.item := by
  constructor
  · rw [choosePrize, h]; rfl
  · intro w hw
    rw [choosePrize, h]
    rw [PRIZES] at hw
    simp only [List.getLast?] at hw
    cases hw
    simp [LAMPORTS_PER_SOL]

/-- Witness for C6 (amended) at r = 1. -/
theorem draw_fallback_is_nothing_witness :
    chooseLoop 1 (normalizeWeights PRIZES) = none ∧ choosePrize 1 = .NOTHING :=
  ⟨by rw [normalizeWeights_PRIZES]; norm_num [chooseLoop],
   (draw_fallback_is_nothing 1
      (by rw [normalizeWeights_PRIZES]; norm_num [chooseLoop])).1⟩

theorem mem_trimStale (cooldown now t : Int) (opens : List Int) :
    t ∈ trimStale cooldown now opens ↔
      t ∈ opens ∧ ¬(0 ≤ t ∧ t ≤ now - cooldown) := by
  simp only [trimStale, List.mem_filter, Bool.not_eq_true',
    decide_eq_false_iff_not]

theorem trimStale_idem (cooldown now : Int) (opens : List Int) :
    trimStale cooldown now (trimStale cooldown now opens) =
      trimStale cooldown now opens := by
  simp only [trimStale, List.filter_filter, Bool.and_self]

theorem oldestScore_mem {l : List Int} {o : Int} (h : oldestScore l = some o) :
    o ∈ l := by
  induction l with
  | nil => simp [oldestScore] at h
  | cons hd tl ih =>
    simp only [oldestScore] at h
    cases htl : oldestScore tl with
    | none => rw [htl] at h; simp at h; simp [h]
    | some m =>
      rw [htl] at h
      simp only [Option.some.injEq] at h
      rcases min_cases hd m with ⟨he, _⟩ | ⟨he, _⟩
      · rw [he] at h; simp [h]
      · rw [he] at h; right; exact ih (h ▸ htl)

/-- C7: the per-request limit computed by `getOpensRemaining` equals the
spec's tier rule — holdingCount ≥ 10 gives SuperHolder with limit 2;
otherwise holdingCount > 0 or any token threshold met gives Holder with
limit 1; otherwise tier None with limit 0 — including the spec's concrete
instances 10 → 2, 5 → 1, 0-and-no-token → 0. -/
theorem limit_matches_tier_rule (cooldown now : Int) (opens : List Int)
    (holderCount : Nat) (isTokenHolder : Bool) :
    (getOpensRemaining cooldown now opens holderCount isTokenHolder).1.limit =
      tierLimit (tierOf holderCount isTokenHolder) ∧
    tierOf 10 false = .SuperHolder ∧ tierLimit .SuperHolder = 2 ∧
    tierOf 5 false = .Holder ∧ tierLimit .Holder = 1 ∧
    tierOf 0 false = .NoneT ∧ tierLimit .NoneT = 0 := by
  refine ⟨?_, by decide, rfl, by decide, rfl, by decide, rfl⟩
  simp only [getOpensRemaining, tierOf, tierLimit, SUPER_HOLDER_THRESHOLD,
    SUPER_HOLDER_LIMIT, HOLDER_LIMIT]
  split
  · rfl
  · split <;> rfl

/-- C10: whenever `getOpensRemaining` reports remaining > 0 its cooldown
value is exactly 0, and a nonzero cooldown is reported only when the quota
is exhausted (remaining = 0). -/
theorem cooldown_zero_when_remaining (cooldown now : Int) (opens : List Int)
    (holderCount : Nat) (isTokenHolder : Bool) :
    (0 < (getOpensRemaining cooldown now opens holderCount isTokenHolder).1.remaining →
      (getOpensRemaining cooldown now opens holderCount isTokenHolder).1.cooldownMs = 0) ∧
    ((getOpensRemaining cooldown now opens holderCount isTokenHolder).1.cooldownMs ≠ 0 →
      (getOpensRemaining cooldown now opens holderCount isTokenHolder).1.remaining = 0) := by
  simp only [getOpensRemaining]
  constructor
  · intro hpos
    rw [if_neg (by omega)]
  · intro hne
    by_contra hrem
    rw [if_neg hrem] at hne
    exact hne rfl

/-- Witness for C10: an empty window with holder count 5 has remaining 1 > 0
and cooldown 0. -/
theorem cooldown_zero_when_remaining_witness :
    (getOpensRemaining 86400000 1000 [] 5 false).1.cooldownMs = 0 :=
  (cooldown_zero_when_remaining 86400000 1000 [] 5 false).1 (by decide)

theorem trimStale_cons_keep (cooldown now t : Int) (l : List Int)
    (h : ¬(0 ≤ t ∧ t ≤ now - cooldown)) :
    trimStale cooldown now (t :: l) = t :: trimStale cooldown now l := by
  simp only [trimStale, List.filter_cons, Bool.not_eq_true',
    decide_eq_false_iff_not]
  rw [if_pos (by simpa using h)]

theorem trimStale_cons_drop (cooldown now t : Int) (l : List Int)
    (h : 0 ≤ t ∧ t ≤ now - cooldown) :
    trimStale cooldown now (t :: l) = trimStale cooldown now l := by
  simp only [trimStale, List.filter_cons]
  rw [if_neg (by simpa using h)]

/-- C8: the quota window is rolling — an entry stays active exactly while
`now − t < cooldown` and ages out independently; when remaining = 0 the
reported cooldown equals `cooldown − (now − oldestActiveTimestamp)`; and in
the concrete SuperHolder scenario (limit 2, cooldown 24h) with opens at t0
and t0+1h, the evaluation at t0+1h still admits, the one at t0+2h is
rejected with cooldown 22h, and the one at t0+25h admits again. -/
theorem rolling_window (cooldown now t0 : Int) (opens : List Int)
    (holderCount : Nat) (isTokenHolder : Bool)
    (ht0 : 0 ≤ t0) (hnn : ∀ t ∈ opens, 0 ≤ t) :
    (∀ t ∈ opens, (t ∈ trimStale cooldown now opens ↔ now - t < cooldown)) ∧
    ((getOpensRemaining cooldown now opens holderCount isTokenHolder).1.remaining = 0 →
      ∀ o, oldestScore (trimStale cooldown now opens) = some o →
        (getOpensRemaining cooldown now opens holderCount isTokenHolder).1.cooldownMs =
          cooldown - (now - o)) ∧
    (getOpensRemaining 86400000 (t0 + 3600000) [t0] 10 false).1.remaining = 1 ∧
    (getOpensRemaining 86400000 (t0 + 7200000) [t0, t0 + 3600000] 10 false).1.remaining = 0 ∧
    (getOpensRemaining 86400000 (t0 + 7200000) [t0, t0 + 3600000] 10 false).1.cooldownMs = 79200000 ∧
    (getOpensRemaining 86400000 (t0 + 90000000) [t0, t0 + 3600000] 10 false).1.remaining = 2 := by
  refine ⟨?_, ?_, ?_, ?_, ?_, ?_⟩
  · intro t ht
    rw [mem_trimStale]
    have h0 : 0 ≤ t := hnn t ht
    constructor
    · rintro ⟨-, h2⟩; omega
    · intro h; exact ⟨ht, by omega⟩
  · intro hrem o ho
    have ho' := oldestScore_mem ho
    rw [mem_trimStale] at ho'
    have h0 : 0 ≤ o := hnn o ho'.1
    have hlt : now - cooldown < o := by
      rcases ho' with ⟨-, h2⟩; omega
    simp only [getOpensRemaining] at hrem ⊢
    rw [if_pos hrem, ho]
    dsimp only
    omega
  · have e1 : trimStale 86400000 (t0 + 3600000) [t0] = [t0] := by
      rw [trimStale_cons_keep _ _ _ _ (by omega)]; rfl
    simp [getOpensRemaining, e1, SUPER_HOLDER_THRESHOLD, SUPER_HOLDER_LIMIT]
  · have e2 : trimStale 86400000 (t0 + 7200000) [t0, t0 + 3600000] =
        [t0, t0 + 3600000] := by
      rw [trimStale_cons_keep _ _ _ _ (by omega),
        trimStale_cons_keep _ _ _ _ (by omega)]
      rfl
    simp [getOpensRemaining, e2, SUPER_HOLDER_THRESHOLD, SUPER_HOLDER_LIMIT]
  · have e2 : trimStale 86400000 (t0 + 7200000) [t0, t0 + 3600000] =
        [t0, t0 + 3600000] := by
      rw [trimStale_cons_keep _ _ _ _ (by omega),
        trimStale_cons_keep _ _ _ _ (by omega)]
      rfl
    have e3 : oldestScore [t0, t0 + 3600000] = some t0 := by
      simp only [oldestScore]
      rw [min_eq_left (by omega)]
    simp only [getOpensRemaining, e2, e3, SUPER_HOLDER_THRESHOLD,
      SUPER_HOLDER_LIMIT]
    norm_num
  · have e4 : trimStale 86400000 (t0 + 90000000) [t0, t0 + 3600000] = [] := by
      rw [trimStale_cons_drop _ _ _ _ ⟨ht0, by omega⟩,
        trimStale_cons_drop _ _ _ _ ⟨by omega, by omega⟩]
      rfl
    simp [getOpensRemaining, e4, SUPER_HOLDER_THRESHOLD, SUPER_HOLDER_LIMIT]

/-- Witness for C8 at t0 = 0 with an empty prior window. -/
theorem rolling_window_witness :
    (getOpensRemaining 86400000 7200000 [0, 3600000] 10 false).1.remaining = 0 ∧
    (getOpensRemaining 86400000 7200000 [0, 3600000] 10 false).1.cooldownMs = 79200000 ∧
    (getOpensRemaining 86400000 90000000 [0, 3600000] 10 false).1.remaining = 2 := by
  have h := rolling_window 86400000 7200000 0 [] 10 false (by decide)
    (by intro t ht; simp at ht)
  exact ⟨by simpa using h.2.2.2.1, by simpa using h.2.2.2.2.1,
    by simpa using h.2.2.2.2.2⟩

/-- C9: `GET /eligibility` is read-only with respect to the admission
state — the set of active window entries is unchanged, no signature record
is created or removed, and a second identical call returns the same
used/limit/remaining/cooldown figures. -/
theorem eligibility_read_only (cooldown now : Int) (env : EligEnv)
    (st : ServerState) (owner : String) :
    (eligibilityHandler cooldown now env st owner).2.sigs = st.sigs ∧
    trimStale cooldown now (eligibilityHandler cooldown now env st owner).2.opens =
      trimStale cooldown now st.opens ∧
    (eligibilityHandler cooldown now env
        (eligibilityHandler cooldown now env st owner).2 owner).1 =
      (eligibilityHandler cooldown now env st owner).1 := by
  refine ⟨rfl, ?_, ?_⟩
  · simp only [eligibilityHandler, getOpensRemaining]
    exact trimStale_idem cooldown now st.opens
  · simp only [eligibilityHandler, getOpensRemaining,
      trimStale_idem cooldown now st.opens]

/-- C2: every `/open` request performs its steps in the fixed order
checkSigUsed → eligibility → quota → verifyPayment → claimProof → draw →
settlement → transfer → record (its trace is a sublist of that order);
verification only happens after the eligibility and quota checks; the proof
is claimed only when verification succeeded; a draw happens only after the
proof was claimed for a paid request; and the window record happens only
after settlement was attempted. -/
theorem open_flow_ordering (cooldown now : Int) (env : OpenEnv)
    (st : ServerState) (sig : String) :
    List.Sublist (openFlow cooldown now env st sig).2.2 openEvOrder ∧
    (Ev.verifyPayment ∈ (openFlow cooldown now env st sig).2.2 →
      Ev.checkEligibility ∈ (openFlow cooldown now env st sig).2.2 ∧
      Ev.checkQuota ∈ (openFlow cooldown now env st sig).2.2) ∧
    (Ev.claimProof ∈ (openFlow cooldown now env st sig).2.2 →
      env.verify.ok = true) ∧
    (Ev.drawPrize ∈ (openFlow cooldown now env st sig).2.2 →
      Ev.claimProof ∈ (openFlow cooldown now env st sig).2.2 ∧
      env.verify.ok = true) ∧
    (Ev.recordWindow ∈ (openFlow cooldown now env st sig).2.2 →
      Ev.settlePhase ∈ (openFlow cooldown now env st sig).2.2) := by
  simp only [openFlow]
  split
  · dsimp only
    exact ⟨List.nil_sublist _, fun h => absurd h (by decide),
      fun h => absurd h (by decide), fun h => absurd h (by decide),
      fun h => absurd h (by decide)⟩
  · split
    · dsimp only
      exact ⟨by decide, fun h => absurd h (by decide),
        fun h => absurd h (by decide), fun h => absurd h (by decide),
        fun h => absurd h (by decide)⟩
    · split
      · dsimp only
        exact ⟨by decide, fun h => absurd h (by decide),
          fun h => absurd h (by decide), fun h => absurd h (by decide),
          fun h => absurd h (by decide)⟩
      · split
        · dsimp only
          exact ⟨by decide, fun _ => ⟨by decide, by decide⟩,
            fun h => absurd h (by decide), fun h => absurd h (by decide),
            fun h => absurd h (by decide)⟩
        · rename_i hok
          have hok' : env.verify.ok = true := by
            cases h : env.verify.ok
            · exact absurd h hok
            · rfl
          split
          · rename_i attempted heq
            cases attempted <;> dsimp only
            · exact ⟨by decide, fun _ => ⟨by decide, by decide⟩,
                fun _ => hok', fun _ => ⟨by decide, hok'⟩,
                fun h => absurd h (by decide)⟩
            · exact ⟨by decide, fun _ => ⟨by decide, by decide⟩,
                fun _ => hok', fun _ => ⟨by decide, hok'⟩,
                fun h => absurd h (by decide)⟩
          · rename_i txSig mint attempted heq
            cases attempted <;> dsimp only
            · exact ⟨by decide, fun _ => ⟨by decide, by decide⟩,
                fun _ => hok', fun _ => ⟨by decide, hok'⟩, fun _ => by decide⟩
            · exact ⟨by decide, fun _ => ⟨by decide, by decide⟩,
                fun _ => hok', fun _ => ⟨by decide, hok'⟩, fun _ => by decide⟩

/-- Witness for C2 on a successful request: the proof is claimed and
verification had succeeded. -/
theorem open_flow_ordering_witness :
    Ev.claimProof ∈ (openFlow 86400000 1000
      ⟨5, false, false, false, false, ⟨true, 1000000, none⟩, .NOTHING, none,
        some "s", some "n"⟩ ⟨[], []⟩ "paysig").2.2 ∧
    (⟨5, false, false, false, false, ⟨true, 1000000, none⟩, .NOTHING, none,
        some "s", some "n"⟩ : OpenEnv).verify.ok = true :=
  ⟨by decide,
   (open_flow_ordering 86400000 1000
      ⟨5, false, false, false, false, ⟨true, 1000000, none⟩, .NOTHING, none,
        some "s", some "n"⟩ ⟨[], []⟩ "paysig").2.2.1 (by decide)⟩

/-- C3 counterexample: a verification-failed `/open` request over a state
holding one stale window entry is rejected without claiming the proof, but
the persisted state is NOT unchanged — the stale entry was trimmed by the
quota check before verification ran. -/
theorem open_verify_fail_state_counterexample :
    (openFlow 86400000 172800001
      ⟨5, false, false, false, false,
        ⟨false, 0, some "Transaction not found or not confirmed"⟩,
        .NOTHING, none, some "s", some "n"⟩ ⟨[], [0]⟩ "paysig").1 =
      .badRequest "Payment verification failed: Transaction not found or not confirmed" ∧
    (openFlow 86400000 172800001
      ⟨5, false, false, false, false,
        ⟨false, 0, some "Transaction not found or not confirmed"⟩,
        .NOTHING, none, some "s", some "n"⟩ ⟨[], [0]⟩ "paysig").2.1 ≠
      (⟨[], [0]⟩ : ServerState) := by decide

/-- C3 (amended): every `/open` request that reaches payment verification
and fails it is rejected with a payment-verification error; the proof is not
inserted into the idempotency store, no claim, draw, settlement, transfer or
window record occurs, and the set of active window entries is unchanged
(stale entries may have been trimmed by the quota check). -/
theorem open_verify_fail_no_side_effects (cooldown now : Int) (env : OpenEnv)
    (st : ServerState) (sig : String)
    (h1 : sig ≠ "") (h2 : hasUsedSignature st sig = false)
    (h3 : (getOpensRemaining cooldown now st.opens env.holderCount
      (env.tokenCheck || env.tokenCheck1 || env.tokenCheck2
        || env.tokenCheck3)).1.remaining ≠ 0)
    (hfail : env.verify.ok = false) :
    (openFlow cooldown now env st sig).1 =
      .badRequest ("Payment verification failed: " ++ env.verify.err.getD "unknown") ∧
    (openFlow cooldown now env st sig).2.1.sigs = st.sigs ∧
    trimStale cooldown now (openFlow cooldown now env st sig).2.1.opens =
      trimStale cooldown now st.opens ∧
    (openFlow cooldown now env st sig).2.2 =
      [.checkSigUsed, .checkEligibility, .checkQuota, .verifyPayment] := by
  simp only [openFlow]
  rw [if_neg h1]
  rw [if_neg (by simp [h2])]
  rw [if_neg h3, if_pos hfail]
  dsimp only
  exact ⟨rfl, rfl, trimStale_idem cooldown now st.opens, rfl⟩

/-- Witness for C3 (amended) at a concrete verification-failed request. -/
theorem open_verify_fail_no_side_effects_witness :
    (openFlow 86400000 172800001
      ⟨5, false, false, false, false, ⟨false, 0, none⟩, .NOTHING, none,
        some "s", some "n"⟩ ⟨[], [0]⟩ "paysig").1 =
      .badRequest "Payment verification failed: unknown" ∧
    (openFlow 86400000 172800001
      ⟨5, false, false, false, false, ⟨false, 0, none⟩, .NOTHING, none,
        some "s", some "n"⟩ ⟨[], [0]⟩ "paysig").2.1.sigs = [] :=
  ⟨(open_verify_fail_no_side_effects 86400000 172800001
      ⟨5, false, false, false, false, ⟨false, 0, none⟩, .NOTHING, none,
        some "s", some "n"⟩ ⟨[], [0]⟩ "paysig"
      (by decide) (by decide) (by decide) (by decide)).1,
   (open_verify_fail_no_side_effects 86400000 172800001
      ⟨5, false, false, false, false, ⟨false, 0, none⟩, .NOTHING, none,
        some "s", some "n"⟩ ⟨[], [0]⟩ "paysig"
      (by decide) (by decide) (by decide) (by decide)).2.1⟩

/-- C1: when the drawn outcome is the NFT prize and the treasury inventory
returns no item, the code responds with ok=true carrying the DRAWN NFT
outcome (result.kind = 'NFT'), with null settlement reference and null
mint; no transfer is attempted and no second draw is performed.  The
response result is NOT `Nothing`, contradicting both the spec and the
code's own "fallback to nothing" comment/warning — evidence for the code
bug recorded for this claim. -/
theorem open_nft_empty_inventory_behavior :
    (openFlow 86400000 1000
      ⟨12, false, false, false, false, ⟨true, 1000000, none⟩,
        .NFT "Elementals NFT", none, some "s", some "n"⟩
      ⟨[], []⟩ "paysig").1 =
      .success (.NFT "Elementals NFT") none none "paysig" ∧
    Ev.transfer ∉ (openFlow 86400000 1000
      ⟨12, false, false, false, false, ⟨true, 1000000, none⟩,
        .NFT "Elementals NFT", none, some "s", some "n"⟩
      ⟨[], []⟩ "paysig").2.2 ∧
    ((openFlow 86400000 1000
      ⟨12, false, false, false, false, ⟨true, 1000000, none⟩,
        .NFT "Elementals NFT", none, some "s", some "n"⟩
      ⟨[], []⟩ "paysig").2.2.count .drawPrize = 1) ∧
    (PrizeKind.NFT "Elementals NFT" ≠ .NOTHING) := by decide

end ElementalsBox
